import Mathlib

/-!
Verification of the traindle daily-station selector and guess evaluator.

The definitions below are a shallow embedding of `src/lib/getDailyStation.ts`
and the refined guess evaluator (`evaluateGuess` with directional region
verdicts, its centroid table, and `src/lib/regionAdjacency.ts`,
`src/lib/types.ts`).

Modelling conventions:
* JS numbers holding integers (platform counts, band indices) are `Int`/`Nat`.
* The seeded PRNG `seedrandom(seed)()` yields a double in `[0, 1)`; doubles
  are dyadic rationals with 53-bit mantissa, so the first draw is modelled as
  `rng seed / 2 ^ 53` for an abstract `rng : String → Nat` with
  `rng seed < 2 ^ 53`.  `Math.floor(rng() * stations.length)` is then exactly
  `rng seed * stations.length / 2 ^ 53` in natural-number division.
* The UTC wall clock is abstracted as `dates : Nat → String`, where `dates n`
  is the `YYYY-MM-DD` key produced by `dateSeedDaysAgo(n)`; `dates 0` is
  `todaySeed()`.
* JS array indexing `stations[i]` yields `undefined` out of bounds, modelled
  by `Option Station`; reading a field of `undefined` throws a `TypeError`,
  modelled by `Except String`.
* Verdict strings of `GuessResult` are kept as `String`s, exactly the string
  literals and template strings of the source.
-/

namespace Traindle

inductive Region
  | scotland
  | northernIreland
  | wales
  | northWest
  | northEast
  | yorkshire
  | eastMidlands
  | westMidlands
  | eastOfEngland
  | london
  | southEast
  | southWest
deriving DecidableEq, Fintype, Repr

inductive FootfallBand
  | lt10k
  | f10k100k
  | f100k500k
  | f500k1m
  | f1m5m
  | f5m10m
  | f10mPlus
deriving DecidableEq, Fintype, Repr

inductive StationType
  | terminus
  | through
  | interchange
deriving DecidableEq, Fintype, Repr

structure Station where
  name : String
  crs : String
  operators : List String
  region : Region
  platforms : Int
  footfallBand : FootfallBand
  stationType : StationType
deriving DecidableEq, Repr

structure GuessResult where
  operator : String
  region : String
  platforms : String
  footfallBand : String
  stationType : String
deriving DecidableEq, Repr

/-- `REGION_ADJACENCY` from `src/lib/regionAdjacency.ts`, verbatim. -/
def REGION_ADJACENCY : Region → List Region
  | .scotland => [.northEast, .northWest, .northernIreland]
  | .northernIreland => [.scotland, .wales]
  | .wales => [.northernIreland, .northWest, .westMidlands, .southWest]
  | .northWest => [.scotland, .wales, .northEast, .yorkshire, .eastMidlands, .westMidlands]
  | .northEast => [.scotland, .northWest, .yorkshire]
  | .yorkshire => [.northWest, .northEast, .eastMidlands, .eastOfEngland]
  | .eastMidlands => [.northWest, .yorkshire, .westMidlands, .eastOfEngland, .london]
  | .westMidlands => [.wales, .northWest, .eastMidlands, .southWest, .southEast]
  | .eastOfEngland => [.yorkshire, .eastMidlands, .london]
  | .london => [.eastMidlands, .westMidlands, .eastOfEngland, .southEast, .southWest]
  | .southEast => [.westMidlands, .london, .southWest]
  | .southWest => [.wales, .westMidlands, .london, .southEast]

/-- `REGION_CENTROIDS`: approximate `[lat, lon]` per region, from the source,
scaled by 10 to integers (every source coordinate has one decimal digit;
scaling does not change any bearing). -/
def REGION_CENTROIDS : Region → Int × Int
  | .scotland => (565, -42)
  | .northernIreland => (546, -67)
  | .wales => (523, -37)
  | .northWest => (539, -26)
  | .northEast => (549, -17)
  | .yorkshire => (539, -15)
  | .eastMidlands => (528, -10)
  | .westMidlands => (525, -19)
  | .eastOfEngland => (522, 5)
  | .london => (515, -1)
  | .southEast => (512, 5)
  | .southWest => (510, -30)

/-- `x < √2 * y` for integers with `0 ≤ y`, decided exactly: for `x < 0` it is
trivially true, otherwise both sides are nonnegative and squaring is an
equivalence. -/
def ltSqrtTwoMul (x y : Int) : Bool :=
  x < 0 || x * x < 2 * (y * y)

/-- `x > √2 * y` for integers with `0 ≤ y`, decided exactly: it forces
`x > 0`, and then squaring is an equivalence. -/
def gtSqrtTwoMul (x y : Int) : Bool :=
  0 < x && 2 * (y * y) < x * x

/-- The octant binning of the source's `directionBetween`: the code computes
`deg = Math.atan2(dlon, dlat) * 180 / π` and bins it into the eight
half-open 45°-wide intervals `[-22.5, 22.5) ↦ N`, `[22.5, 67.5) ↦ NE`,
`[67.5, 112.5) ↦ E`, `[112.5, 157.5) ↦ SE`, `[157.5, 180] ∪ (-180, -157.5) ↦ S`,
`[-157.5, -112.5) ↦ SW`, `[-112.5, -67.5) ↦ W`, else `NW`.

Here the same binning is carried out in exact integer arithmetic, using
`tan 22.5° = √2 - 1` and `tan 67.5° = √2 + 1`:
* `|deg| < 22.5 ↔ dlat > 0 ∧ |dlon| < (√2-1)·dlat ↔ |dlat|+|dlon| < √2·|dlat| ∧ dlat > 0`,
  and symmetrically `|deg| > 157.5` with `dlat < 0` (the `N`/`S` zone);
* `67.5 < |deg| < 112.5 ↔ |dlon| > (√2+1)·|dlat| ↔ |dlon|-|dlat| > √2·|dlat|`,
  split into `E`/`W` by the sign of `dlon`;
* the remaining vectors lie strictly inside a diagonal octant, chosen by the
  signs of `dlat` and `dlon`.

The interval endpoints have irrational tangents, so no nonzero integer vector
falls on a boundary and the binning is exact.  `Math.atan2(0, 0) = 0`, so the
zero vector gets `N` as in the source (it cannot arise for distinct regions:
all centroids are distinct). -/
def dirOctant (dlat dlon : Int) : String :=
  if dlat = 0 && dlon = 0 then "N"
  else if ltSqrtTwoMul (|dlat| + |dlon|) |dlat| then
    if 0 < dlat then "N" else "S"
  else if gtSqrtTwoMul (|dlon| - |dlat|) |dlat| then
    if 0 < dlon then "E" else "W"
  else if 0 < dlat then
    if 0 < dlon then "NE" else "NW"
  else
    if 0 < dlon then "SE" else "SW"

/-- `directionBetween` from the source: bearing octant from `src`'s centroid
to `dst`'s centroid, prefixed with `close`/`far` according to the adjacency
list, rendered as the template string `` `${proximity}-${dir}` ``. -/
def directionBetween (src dst : Region) : String :=
  let c1 := REGION_CENTROIDS src
  let c2 := REGION_CENTROIDS dst
  let dlat := c2.1 - c1.1
  let dlon := c2.2 - c1.2
  let dir := dirOctant dlat dlon
  let proximity := if (REGION_ADJACENCY src).contains dst then "close" else "far"
  proximity ++ "-" ++ dir

/-- `FOOTFALL_ORDER` from the source, the fixed 7-band order
`['<10k', '10k-100k', '100k-500k', '500k-1m', '1m-5m', '5m-10m', '10m+']`. -/
def FOOTFALL_ORDER : List FootfallBand :=
  [.lt10k, .f10k100k, .f100k500k, .f500k1m, .f1m5m, .f5m10m, .f10mPlus]

/-- `evaluateGuess(guess, mystery)` from the source.  JS `Set` sizes are
numbers of distinct elements (`List.dedup.length`), `Set.has` is list
membership, and `mystery.operators.filter((o) => guessSet.has(o)).length`
counts the mystery-operator entries present among the guess operators. -/
def evaluateGuess (guess mystery : Station) : GuessResult :=
  let matchCount := (mystery.operators.filter fun o => guess.operators.contains o).length
  let mysterySetSize := mystery.operators.dedup.length
  let guessSetSize := guess.operators.dedup.length
  let operator :=
    if matchCount = 0 then "wrong"
    else if matchCount = mysterySetSize ∧ guessSetSize = mysterySetSize then "correct"
    else "partial"
  let region :=
    if guess.region = mystery.region then "correct"
    else directionBetween guess.region mystery.region
  let platDiff : Int := mystery.platforms - guess.platforms
  let platforms :=
    if platDiff = 0 then "correct"
    else if 1 ≤ platDiff ∧ platDiff ≤ 2 then "close-higher"
    else if platDiff ≤ -1 ∧ -2 ≤ platDiff then "close-lower"
    else if 2 < platDiff then "far-higher"
    else "far-lower"
  let guessIdx : Int := FOOTFALL_ORDER.indexOf guess.footfallBand
  let mystIdx : Int := FOOTFALL_ORDER.indexOf mystery.footfallBand
  let diff : Int := mystIdx - guessIdx
  let footfallBand :=
    if diff = 0 then "correct"
    else if diff = 1 then "close-higher"
    else if diff = -1 then "close-lower"
    else if 1 < diff then "far-higher"
    else "far-lower"
  let stationType :=
    if guess.stationType = mystery.stationType then "correct" else "wrong"
  ⟨operator, region, platforms, footfallBand, stationType⟩

/-- JS `[...ops].sort()`: an ascending comparison sort of the operator names.
Any stable comparison sort yields the same sorted list, so insertion sort is
used. -/
def sortOps (l : List String) : List String :=
  l.insertionSort (fun a b => a ≤ b)

/-- `categoriesMatch` from `src/lib/getDailyStation.ts`: the two stations
agree on region, platforms, footfall band and station type, their operator
lists have the same length, and their sorted operator lists agree pointwise
(with equal lengths that is equality of the sorted lists). -/
def categoriesMatch (a b : Station) : Bool :=
  a.region == b.region &&
  a.platforms == b.platforms &&
  a.footfallBand == b.footfallBand &&
  a.stationType == b.stationType &&
  a.operators.length == b.operators.length &&
  sortOps a.operators == sortOps b.operators

/-- `indexForSeed` from the source:
`Math.floor(seedrandom(seed)() * stations.length)` with the PRNG draw
modelled as the dyadic rational `rng seed / 2 ^ 53`. -/
def indexForSeed (stations : List Station) (rng : String → Nat) (seed : String) : Nat :=
  rng seed * stations.length / 2 ^ 53

/-- JS array read `stations[i]`: `undefined` (here `none`) out of bounds. -/
def jsGet (stations : List Station) (i : Nat) : Option Station :=
  stations[i]?

/-- A call `categoriesMatch(a, b)` at JS runtime: if either argument is
`undefined`, reading `.region` from it throws a `TypeError`. -/
def categoriesMatchJs : Option Station → Option Station → Except String Bool
  | some a, some b => .ok (categoriesMatch a b)
  | _, _ => .error "TypeError"

/-- The candidate-seed scheme of both retry loops:
`attempt === 0 ? dateStr : ` `` `${dateStr}-${attempt}` ``. -/
def trySeed (dateStr : String) (attempt : Nat) : String :=
  if attempt = 0 then dateStr else dateStr ++ "-" ++ toString attempt

/-- The `for (let attempt = 0; attempt < 10; attempt++)` loop of
`resolveStationForDate`, over the remaining attempt numbers; when the
attempts are exhausted the source returns `stations[indexForSeed(dateStr)]`. -/
def resolveStationForDateAux (stations : List Station) (rng : String → Nat)
    (dateStr : String) (prevStation : Option Station) :
    List Nat → Except String (Option Station)
  | [] => .ok (jsGet stations (indexForSeed stations rng dateStr))
  | attempt :: rest => do
      let idx := indexForSeed stations rng (trySeed dateStr attempt)
      let collides ← categoriesMatchJs (jsGet stations idx) prevStation
      if collides then
        resolveStationForDateAux stations rng dateStr prevStation rest
      else
        .ok (jsGet stations idx)

/-- `resolveStationForDate(dateStr, prevStation)` from the source. -/
def resolveStationForDate (stations : List Station) (rng : String → Nat)
    (dateStr : String) (prevStation : Option Station) : Except String (Option Station) :=
  resolveStationForDateAux stations rng dateStr prevStation (List.range 10)

/-- The `for (let attempt = 0; attempt < 10; attempt++)` loop of
`getDailyStationIndex`: a candidate is accepted when it collision-matches
neither the resolved yesterday station nor the resolved two-days-ago station
(`&&` short-circuits, so the second `categoriesMatch` call only happens when
the first did not match); after 10 collisions the source falls back to
`indexForSeed(base)`. -/
def getDailyStationIndexAux (stations : List Station) (rng : String → Nat)
    (base : String) (yesterdayStation twoDaysAgoStation : Option Station) :
    List Nat → Except String Nat
  | [] => .ok (indexForSeed stations rng base)
  | attempt :: rest => do
      let idx := indexForSeed stations rng (trySeed base attempt)
      let m1 ← categoriesMatchJs (jsGet stations idx) yesterdayStation
      if m1 then
        getDailyStationIndexAux stations rng base yesterdayStation twoDaysAgoStation rest
      else do
        let m2 ← categoriesMatchJs (jsGet stations idx) twoDaysAgoStation
        if m2 then
          getDailyStationIndexAux stations rng base yesterdayStation twoDaysAgoStation rest
        else
          .ok idx

/-- `getDailyStationIndex(seed?)` from the source.  `dates n` stands for
`dateSeedDaysAgo(n)`; `dates 0` is `todaySeed()`. -/
def getDailyStationIndex (stations : List Station) (rng : String → Nat)
    (dates : Nat → String) : Option String → Except String Nat
  | some seed => .ok (indexForSeed stations rng seed)
  | none => do
      let base := dates 0
      let threeDaysAgoStation := jsGet stations (indexForSeed stations rng (dates 3))
      let twoDaysAgoStation ← resolveStationForDate stations rng (dates 2) threeDaysAgoStation
      let yesterdayStation ← resolveStationForDate stations rng (dates 1) twoDaysAgoStation
      getDailyStationIndexAux stations rng base yesterdayStation twoDaysAgoStation (List.range 10)

/-- `getDailyStation(seed?)` from the source: `stations[getDailyStationIndex(seed)]`. -/
def getDailyStation (stations : List Station) (rng : String → Nat)
    (dates : Nat → String) (seed : Option String) : Except String (Option Station) :=
  (getDailyStationIndex stations rng dates seed).map (jsGet stations)

/-- The station `getDailyStationIndex` internally resolves for two days ago:
`resolveStationForDate(dateSeedDaysAgo(2), stations[indexForSeed(dateSeedDaysAgo(3))])`. -/
def resolvedTwoDaysAgo (stations : List Station) (rng : String → Nat)
    (dates : Nat → String) : Except String (Option Station) :=
  resolveStationForDate stations rng (dates 2)
    (jsGet stations (indexForSeed stations rng (dates 3)))

/-- The station `getDailyStationIndex` internally resolves for yesterday:
`resolveStationForDate(dateSeedDaysAgo(1), twoDaysAgoStation)`. -/
def resolvedYesterday (stations : List Station) (rng : String → Nat)
    (dates : Nat → String) : Except String (Option Station) :=
  (resolvedTwoDaysAgo stations rng dates).bind
    (resolveStationForDate stations rng (dates 1))

/-! Specification-side definitions, phrased after the spec text rather than
the source, for the refinement statements. -/

/-- Spec notion of stations being "the same" for repeat avoidance: all of
region, platforms, footfallBand, stationType match, and the operator lists
are identical as sets (order-insensitive, i.e. up to permutation for the
duplicate-free operator lists of the data model). -/
def sameCategories (a b : Station) : Prop :=
  a.region = b.region ∧ a.platforms = b.platforms ∧
  a.footfallBand = b.footfallBand ∧ a.stationType = b.stationType ∧
  a.operators.Perm b.operators

instance (a b : Station) : Decidable (sameCategories a b) := by
  unfold sameCategories; infer_instance

/-- Spec list of candidate seeds for a date key: `seed`, then `seed-1`,
`seed-2`, ..., `seed-9`. -/
def specCandidateSeeds (base : String) : List String :=
  base :: ((List.range 9).map fun k => base ++ "-" ++ toString (k + 1))

/-- A candidate seed is acceptable for today when its station matches
neither of the two resolved recent-day stations. -/
def freshAgainstTwo (stations : List Station) (rng : String → Nat)
    (yesterday twoDaysAgo : Station) (s : String) : Bool :=
  match jsGet stations (indexForSeed stations rng s) with
  | some st => !(decide (sameCategories st yesterday)) && !(decide (sameCategories st twoDaysAgo))
  | none => false

/-- Spec description of today's selection given the two resolved recent-day
stations: the index of the first acceptable candidate seed, or the plain
`seededIndex(seed)` of the base date seed if all 10 candidates collide. -/
def specTodayIndex (stations : List Station) (rng : String → Nat)
    (base : String) (yesterday twoDaysAgo : Station) : Nat :=
  match (specCandidateSeeds base).find? (freshAgainstTwo stations rng yesterday twoDaysAgo) with
  | some s => indexForSeed stations rng s
  | none => indexForSeed stations rng base

/-- A candidate seed is acceptable for a prior day when its station does not
match the single previous-day station it is resolved against. -/
def freshAgainstOne (stations : List Station) (rng : String → Nat)
    (prev : Station) (s : String) : Bool :=
  match jsGet stations (indexForSeed stations rng s) with
  | some st => !(decide (sameCategories st prev))
  | none => false

/-- Spec description of the collision-avoidance resolution of a prior day
against its single predecessor station: first acceptable candidate seed,
else fall back to the plain seeded index of the date key. -/
def specResolveIdx (stations : List Station) (rng : String → Nat)
    (dateStr : String) (prev : Station) : Nat :=
  match (specCandidateSeeds dateStr).find? (freshAgainstOne stations rng prev) with
  | some s => indexForSeed stations rng s
  | none => indexForSeed stations rng dateStr

/-- Spec ordinal of a footfall band: its position in the fixed 7-band order. -/
def bandOrd : FootfallBand → Nat
  | .lt10k => 0
  | .f10k100k => 1
  | .f100k500k => 2
  | .f500k1m => 3
  | .f1m5m => 4
  | .f5m10m => 5
  | .f10mPlus => 6

/-! Concrete fixtures used for witnesses and counterexamples. -/

/-- Fixture station in Scotland. -/
def stA : Station :=
  ⟨"Alpha", "AAA", ["OpA"], .scotland, 1, .lt10k, .terminus⟩

/-- Fixture station in Wales. -/
def stB : Station :=
  ⟨"Beta", "BBB", ["OpB"], .wales, 2, .f10k100k, .through⟩

/-- Fixture station in London. -/
def stC : Station :=
  ⟨"Gamma", "CCC", ["OpC"], .london, 4, .f100k500k, .interchange⟩

/-- Fixture station list. -/
def exStations : List Station := [stA, stB, stC]

/-- Fixture date keys: `dates n = "D" ++ toString n`. -/
def exDates : Nat → String := fun n => "D" ++ toString n

/-- Fixture PRNG values (53-bit mantissas): chosen so that over the
3-element fixture list, seed `D3` and `D1` map to index 1, `D1-1` maps to
index 2, and every other seed maps to index 0. -/
def exRng : String → Nat := fun s =>
  if s = "D3" then 2 ^ 52
  else if s = "D1" then 2 ^ 52
  else if s = "D1-1" then 7 * 2 ^ 50
  else 0

/-! Helper lemmas. -/

theorem exRng_bound : ∀ s, exRng s < 2 ^ 53 := by
  intro s
  unfold exRng
  split
  · norm_num
  · split
    · norm_num
    · split <;> norm_num

theorem sortOps_perm (l : List String) : (sortOps l).Perm l :=
  List.perm_insertionSort _ l

theorem sortOps_sorted (l : List String) :
    List.Sorted (fun a b : String => a ≤ b) (sortOps l) :=
  List.sorted_insertionSort _ l

theorem sortOps_eq_iff {a b : List String} : sortOps a = sortOps b ↔ a.Perm b := by
  constructor
  · intro h
    exact (sortOps_perm a).symm.trans (h ▸ sortOps_perm b)
  · intro h
    exact List.eq_of_perm_of_sorted
      ((sortOps_perm a).trans (h.trans (sortOps_perm b).symm))
      (sortOps_sorted a) (sortOps_sorted b)

theorem categoriesMatch_iff (a b : Station) :
    categoriesMatch a b = true ↔ sameCategories a b := by
  unfold categoriesMatch sameCategories
  simp only [Bool.and_eq_true, beq_iff_eq, sortOps_eq_iff]
  constructor
  · rintro ⟨⟨⟨⟨⟨h1, h2⟩, h3⟩, h4⟩, h5⟩, h6⟩
    exact ⟨h1, h2, h3, h4, h6⟩
  · rintro ⟨h1, h2, h3, h4, h5⟩
    exact ⟨⟨⟨⟨⟨h1, h2⟩, h3⟩, h4⟩, h5.length_eq⟩, h5⟩

theorem indexForSeed_lt (stations : List Station) (rng : String → Nat)
    (hne : stations ≠ []) (hr : ∀ s, rng s < 2 ^ 53) (s : String) :
    indexForSeed stations rng s < stations.length := by
  unfold indexForSeed
  have hlen : 0 < stations.length := List.length_pos.mpr hne
  have hmul : rng s * stations.length < stations.length * 2 ^ 53 := by
    calc rng s * stations.length < 2 ^ 53 * stations.length :=
          (Nat.mul_lt_mul_right hlen).mpr (hr s)
      _ = stations.length * 2 ^ 53 := Nat.mul_comm _ _
  exact (Nat.div_lt_iff_lt_mul (by positivity)).mpr hmul

theorem jsGet_indexForSeed (stations : List Station) (rng : String → Nat)
    (hne : stations ≠ []) (hr : ∀ s, rng s < 2 ^ 53) (s : String) :
    ∃ st, jsGet stations (indexForSeed stations rng s) = some st ∧ st ∈ stations := by
  have h := indexForSeed_lt stations rng hne hr s
  refine ⟨stations.get ⟨indexForSeed stations rng s, h⟩, ?_, List.get_mem stations _ h⟩
  simp [jsGet, List.getElem?_eq_getElem h]

theorem resolveAux_eq_spec (stations : List Station) (rng : String → Nat)
    (dateStr : String) (prev : Station)
    (hne : stations ≠ []) (hr : ∀ s, rng s < 2 ^ 53) (L : List Nat) :
    resolveStationForDateAux stations rng dateStr (some prev) L =
      .ok (jsGet stations
        (match (L.map (trySeed dateStr)).find? (freshAgainstOne stations rng prev) with
          | some s => indexForSeed stations rng s
          | none => indexForSeed stations rng dateStr)) := by
  induction L with
  | nil => rfl
  | cons a rest ih =>
    obtain ⟨st, hst, _⟩ := jsGet_indexForSeed stations rng hne hr (trySeed dateStr a)
    have hpred : freshAgainstOne stations rng prev (trySeed dateStr a) =
        !(decide (sameCategories st prev)) := by
      unfold freshAgainstOne
      rw [hst]
    by_cases hm : categoriesMatch st prev = true
    · have hsame : sameCategories st prev := (categoriesMatch_iff st prev).mp hm
      have hpredf : freshAgainstOne stations rng prev (trySeed dateStr a) = false := by
        rw [hpred]; simp [hsame]
      simp only [resolveStationForDateAux, hst, categoriesMatchJs, hm, List.map_cons]
      rw [List.find?_cons_of_neg _ (by simp [hpredf]), ih]
      rfl
    · have hsame : ¬sameCategories st prev := fun h =>
        hm ((categoriesMatch_iff st prev).mpr h)
      have hpredt : freshAgainstOne stations rng prev (trySeed dateStr a) = true := by
        rw [hpred]; simp [hsame]
      have hmf : categoriesMatch st prev = false := Bool.eq_false_iff.mpr hm
      simp only [resolveStationForDateAux, hst, categoriesMatchJs, hmf, List.map_cons]
      rw [List.find?_cons_of_pos _ hpredt, hst]
      rfl

theorem resolve_eq_spec (stations : List Station) (rng : String → Nat)
    (dateStr : String) (prev : Station)
    (hne : stations ≠ []) (hr : ∀ s, rng s < 2 ^ 53) :
    resolveStationForDate stations rng dateStr (some prev) =
      .ok (jsGet stations (specResolveIdx stations rng dateStr prev)) := by
  unfold resolveStationForDate specResolveIdx
  rw [resolveAux_eq_spec stations rng dateStr prev hne hr]
  rfl

theorem todayAux_eq_spec (stations : List Station) (rng : String → Nat)
    (base : String) (y t : Station)
    (hne : stations ≠ []) (hr : ∀ s, rng s < 2 ^ 53) (L : List Nat) :
    getDailyStationIndexAux stations rng base (some y) (some t) L =
      .ok (match (L.map (trySeed base)).find? (freshAgainstTwo stations rng y t) with
        | some s => indexForSeed stations rng s
        | none => indexForSeed stations rng base) := by
  induction L with
  | nil => rfl
  | cons a rest ih =>
    obtain ⟨st, hst, _⟩ := jsGet_indexForSeed stations rng hne hr (trySeed base a)
    have hpred : freshAgainstTwo stations rng y t (trySeed base a) =
        (!(decide (sameCategories st y)) && !(decide (sameCategories st t))) := by
      unfold freshAgainstTwo
      rw [hst]
    by_cases hm1 : categoriesMatch st y = true
    · have hs1 : sameCategories st y := (categoriesMatch_iff st y).mp hm1
      have hpredf : freshAgainstTwo stations rng y t (trySeed base a) = false := by
        rw [hpred]; simp [hs1]
      simp only [getDailyStationIndexAux, hst, categoriesMatchJs, hm1, List.map_cons]
      rw [List.find?_cons_of_neg _ (by simp [hpredf]), ih]
      rfl
    · have hs1 : ¬sameCategories st y := fun h => hm1 ((categoriesMatch_iff st y).mpr h)
      have hm1f : categoriesMatch st y = false := Bool.eq_false_iff.mpr hm1
      by_cases hm2 : categoriesMatch st t = true
      · have hs2 : sameCategories st t := (categoriesMatch_iff st t).mp hm2
        have hpredf : freshAgainstTwo stations rng y t (trySeed base a) = false := by
          rw [hpred]; simp [hs2]
        simp only [getDailyStationIndexAux, hst, categoriesMatchJs, hm1f, hm2,
          List.map_cons]
        rw [List.find?_cons_of_neg _ (by simp [hpredf]), ih]
        rfl
      · have hs2 : ¬sameCategories st t := fun h => hm2 ((categoriesMatch_iff st t).mpr h)
        have hm2f : categoriesMatch st t = false := Bool.eq_false_iff.mpr hm2
        have hpredt : freshAgainstTwo stations rng y t (trySeed base a) = true := by
          rw [hpred]; simp [hs1, hs2]
        simp only [getDailyStationIndexAux, hst, categoriesMatchJs, hm1f, hm2f,
          List.map_cons]
        rw [List.find?_cons_of_pos _ hpredt]
        rfl

theorem range10_map_trySeed (base : String) :
    (List.range 10).map (trySeed base) = specCandidateSeeds base := rfl

theorem okBind {ε α β : Type} (a : α) (f : α → Except ε β) :
    (Except.ok a : Except ε α) >>= f = f a := rfl

theorem okBindE {ε α β : Type} (a : α) (f : α → Except ε β) :
    (Except.ok a : Except ε α).bind f = f a := rfl

theorem specResolveIdx_is_seeded (stations : List Station) (rng : String → Nat)
    (dateStr : String) (prev : Station) :
    ∃ s, specResolveIdx stations rng dateStr prev = indexForSeed stations rng s := by
  unfold specResolveIdx
  cases h : (specCandidateSeeds dateStr).find? (freshAgainstOne stations rng prev) with
  | none => exact ⟨dateStr, rfl⟩
  | some s2 => exact ⟨s2, rfl⟩

theorem specTodayIndex_is_seeded (stations : List Station) (rng : String → Nat)
    (base : String) (y t : Station) :
    ∃ s, specTodayIndex stations rng base y t = indexForSeed stations rng s := by
  unfold specTodayIndex
  cases h : (specCandidateSeeds base).find? (freshAgainstTwo stations rng y t) with
  | none => exact ⟨base, rfl⟩
  | some s2 => exact ⟨s2, rfl⟩

theorem dailyNoSeed_spec (stations : List Station) (rng : String → Nat)
    (dates : Nat → String) (hne : stations ≠ []) (hr : ∀ s, rng s < 2 ^ 53) :
    ∃ three t y,
      jsGet stations (indexForSeed stations rng (dates 3)) = some three ∧
      resolvedTwoDaysAgo stations rng dates = .ok (some t) ∧
      jsGet stations (specResolveIdx stations rng (dates 2) three) = some t ∧
      resolvedYesterday stations rng dates = .ok (some y) ∧
      jsGet stations (specResolveIdx stations rng (dates 1) t) = some y ∧
      getDailyStationIndex stations rng dates none =
        .ok (specTodayIndex stations rng (dates 0) y t) := by
  obtain ⟨three, h3, -⟩ := jsGet_indexForSeed stations rng hne hr (dates 3)
  obtain ⟨s2, hs2⟩ := specResolveIdx_is_seeded stations rng (dates 2) three
  obtain ⟨t, ht0, -⟩ := jsGet_indexForSeed stations rng hne hr s2
  have ht : jsGet stations (specResolveIdx stations rng (dates 2) three) = some t := by
    rw [hs2]; exact ht0
  have h2 : resolveStationForDate stations rng (dates 2) (some three) = .ok (some t) := by
    rw [resolve_eq_spec stations rng (dates 2) three hne hr, ht]
  have hRt : resolvedTwoDaysAgo stations rng dates = .ok (some t) := by
    unfold resolvedTwoDaysAgo
    rw [h3]
    exact h2
  obtain ⟨s1, hs1⟩ := specResolveIdx_is_seeded stations rng (dates 1) t
  obtain ⟨y, hy0, -⟩ := jsGet_indexForSeed stations rng hne hr s1
  have hy : jsGet stations (specResolveIdx stations rng (dates 1) t) = some y := by
    rw [hs1]; exact hy0
  have h1 : resolveStationForDate stations rng (dates 1) (some t) = .ok (some y) := by
    rw [resolve_eq_spec stations rng (dates 1) t hne hr, hy]
  have hRy : resolvedYesterday stations rng dates = .ok (some y) := by
    unfold resolvedYesterday
    rw [hRt, okBindE]
    exact h1
  refine ⟨three, t, y, h3, hRt, ht, hRy, hy, ?_⟩
  show (resolveStationForDate stations rng (dates 2)
          (jsGet stations (indexForSeed stations rng (dates 3)))) >>=
        (fun twoDaysAgoStation =>
          (resolveStationForDate stations rng (dates 1) twoDaysAgoStation) >>=
            fun yesterdayStation =>
              getDailyStationIndexAux stations rng (dates 0) yesterdayStation
                twoDaysAgoStation (List.range 10)) =
      .ok (specTodayIndex stations rng (dates 0) y t)
  rw [h3, h2, okBind, h1, okBind,
    todayAux_eq_spec stations rng (dates 0) y t hne hr, range10_map_trySeed]
  rfl

/-- Claim C1: with no override seed, `getDailyStationIndex` tries the 10
candidate seeds `seed, seed-1, ..., seed-9` in order and returns the index of
the first candidate whose station is not "the same" (same region, platforms,
footfallBand, stationType and operator set) as either of the two resolved
prior-day stations; if all 10 candidates collide it falls back to the plain
seeded index of the base date seed.  `specTodayIndex` is that first-fresh-
candidate-or-fallback policy stated over the spec's candidate list. -/
theorem C1_candidate_policy (stations : List Station) (rng : String → Nat)
    (dates : Nat → String) (hne : stations ≠ []) (hr : ∀ s, rng s < 2 ^ 53) :
    ∃ t y,
      resolvedTwoDaysAgo stations rng dates = .ok (some t) ∧
      resolvedYesterday stations rng dates = .ok (some y) ∧
      getDailyStationIndex stations rng dates none =
        .ok (specTodayIndex stations rng (dates 0) y t) := by
  obtain ⟨three, t, y, _, hRt, _, hRy, _, hIdx⟩ := dailyNoSeed_spec stations rng dates hne hr
  exact ⟨t, y, hRt, hRy, hIdx⟩

/-- Witness for C1 on the concrete fixtures. -/
theorem C1_candidate_policy_witness :
    exStations ≠ [] ∧
    (∃ t y,
      resolvedTwoDaysAgo exStations exRng exDates = .ok (some t) ∧
      resolvedYesterday exStations exRng exDates = .ok (some y) ∧
      getDailyStationIndex exStations exRng exDates none =
        .ok (specTodayIndex exStations exRng (exDates 0) y t)) :=
  ⟨by decide, C1_candidate_policy exStations exRng exDates (by decide) exRng_bound⟩

/-- Claim C2 counterexample: on a concrete 3-station list, the station that
`getDailyStationIndex` resolves for yesterday (`stB`) differs from the
station the full `getDailyStationIndex` computation returns when run with the
date context shifted one day back (`stC`), so prior days are NOT resolved by
re-running the full two-prior-day computation. -/
theorem C2_counterexample :
    resolvedYesterday exStations exRng exDates = .ok (some stB) ∧
    (getDailyStationIndex exStations exRng (fun n => exDates (n + 1)) none).map
      (jsGet exStations) = .ok (some stC) ∧
    stB ≠ stC :=
  ⟨rfl, rfl, by decide⟩

/-- Claim C2 amended: the prior-day stations that `getDailyStationIndex`
collision-checks against are resolved by a chained single-predecessor
recursion: two days ago is resolved by the 10-candidate collision avoidance
against only the naive three-days-ago station, and yesterday against only
that resolved two-days-ago station (rather than by re-running the full
two-prior-day computation on the prior day). -/
theorem C2_chained_resolution (stations : List Station) (rng : String → Nat)
    (dates : Nat → String) (hne : stations ≠ []) (hr : ∀ s, rng s < 2 ^ 53) :
    ∃ three t y,
      jsGet stations (indexForSeed stations rng (dates 3)) = some three ∧
      resolvedTwoDaysAgo stations rng dates = .ok (some t) ∧
      jsGet stations (specResolveIdx stations rng (dates 2) three) = some t ∧
      resolvedYesterday stations rng dates = .ok (some y) ∧
      jsGet stations (specResolveIdx stations rng (dates 1) t) = some y := by
  obtain ⟨three, t, y, h3, hRt, ht, hRy, hy, _⟩ := dailyNoSeed_spec stations rng dates hne hr
  exact ⟨three, t, y, h3, hRt, ht, hRy, hy⟩

/-- Witness for the amended C2 on the concrete fixtures. -/
theorem C2_chained_resolution_witness :
    exStations ≠ [] ∧
    (∃ three t y,
      jsGet exStations (indexForSeed exStations exRng (exDates 3)) = some three ∧
      resolvedTwoDaysAgo exStations exRng exDates = .ok (some t) ∧
      jsGet exStations (specResolveIdx exStations exRng (exDates 2) three) = some t ∧
      resolvedYesterday exStations exRng exDates = .ok (some y) ∧
      jsGet exStations (specResolveIdx exStations exRng (exDates 1) t) = some y) :=
  ⟨by decide, C2_chained_resolution exStations exRng exDates (by decide) exRng_bound⟩

/-- Claim C8: with an explicit override seed, `getDailyStationIndex` skips
collision avoidance entirely and returns the raw seeded index
`indexForSeed(seed)` (for any station list, in particular any non-empty one). -/
theorem C8_override_skips_avoidance (stations : List Station) (rng : String → Nat)
    (dates : Nat → String) (s : String) :
    getDailyStationIndex stations rng dates (some s) =
      .ok (indexForSeed stations rng s) := rfl

/-- Claim C9 counterexample: on the empty station list with an override seed,
`getDailyStationIndex` does NOT fail fast with a configuration error — it
returns the value `0`, and `getDailyStation` returns `undefined` (`none`)
without raising anything. -/
theorem C9_counterexample :
    getDailyStationIndex [] exRng exDates (some "S") = .ok 0 ∧
    getDailyStation [] exRng exDates (some "S") = .ok none :=
  ⟨rfl, rfl⟩

/-- Claim C9 amended: the code has no explicit empty-list guard.  With an
override seed, `getDailyStationIndex` on the empty list returns the plain
value `0` and `getDailyStation` yields no station (`undefined`); with no
override seed, the computation aborts with a `TypeError` from reading a field
of `undefined` — an accidental crash, not a deliberate configuration error. -/
theorem C9_empty_list_behaviour (rng : String → Nat) (dates : Nat → String) :
    (∀ s, getDailyStationIndex [] rng dates (some s) = .ok 0) ∧
    (∀ s, getDailyStation [] rng dates (some s) = .ok none) ∧
    getDailyStationIndex [] rng dates none = .error "TypeError" ∧
    getDailyStation [] rng dates none = .error "TypeError" := by
  have hidx : ∀ s, indexForSeed [] rng s = 0 := fun s => by simp [indexForSeed]
  refine ⟨fun s => ?_, fun s => rfl, rfl, rfl⟩
  show Except.ok (indexForSeed [] rng s) = Except.ok 0
  rw [hidx]

/-- Claim C10: for a non-empty station list and any seed (override or
date-derived), `getDailyStationIndex` returns an index strictly below the
list length, and `getDailyStation` returns an element of the list. -/
theorem C10_index_in_bounds (stations : List Station) (rng : String → Nat)
    (dates : Nat → String) (seed : Option String)
    (hne : stations ≠ []) (hr : ∀ s, rng s < 2 ^ 53) :
    ∃ i st,
      getDailyStationIndex stations rng dates seed = .ok i ∧
      i < stations.length ∧
      getDailyStation stations rng dates seed = .ok (some st) ∧
      st ∈ stations := by
  cases seed with
  | some s =>
    obtain ⟨st, hst, hmem⟩ := jsGet_indexForSeed stations rng hne hr s
    refine ⟨indexForSeed stations rng s, st, rfl,
      indexForSeed_lt stations rng hne hr s, ?_, hmem⟩
    show Except.ok (jsGet stations (indexForSeed stations rng s)) = .ok (some st)
    rw [hst]
  | none =>
    obtain ⟨three, t, y, _, _, _, _, _, hIdx⟩ := dailyNoSeed_spec stations rng dates hne hr
    obtain ⟨σ, hσ⟩ := specTodayIndex_is_seeded stations rng (dates 0) y t
    obtain ⟨st, hst, hmem⟩ := jsGet_indexForSeed stations rng hne hr σ
    refine ⟨specTodayIndex stations rng (dates 0) y t, st, hIdx, ?_, ?_, hmem⟩
    · rw [hσ]; exact indexForSeed_lt stations rng hne hr σ
    · unfold getDailyStation
      rw [hIdx]
      show Except.ok (jsGet stations (specTodayIndex stations rng (dates 0) y t)) = _
      rw [hσ, hst]

/-- Witness for C10 on the concrete fixtures. -/
theorem C10_index_in_bounds_witness :
    exStations ≠ [] ∧
    (∃ i st,
      getDailyStationIndex exStations exRng exDates none = .ok i ∧
      i < exStations.length ∧
      getDailyStation exStations exRng exDates none = .ok (some st) ∧
      st ∈ exStations) :=
  ⟨by decide, C10_index_in_bounds exStations exRng exDates none (by decide) exRng_bound⟩

/-! Characterizations of the banded numeric verdicts of `evaluateGuess`. -/

theorem evaluateGuess_platforms_char (g m : Station) :
    ((evaluateGuess g m).platforms = "correct" ↔ m.platforms - g.platforms = 0) ∧
    ((evaluateGuess g m).platforms = "close-higher" ↔
      1 ≤ m.platforms - g.platforms ∧ m.platforms - g.platforms ≤ 2) ∧
    ((evaluateGuess g m).platforms = "close-lower" ↔
      -2 ≤ m.platforms - g.platforms ∧ m.platforms - g.platforms ≤ -1) ∧
    ((evaluateGuess g m).platforms = "far-higher" ↔ 2 < m.platforms - g.platforms) ∧
    ((evaluateGuess g m).platforms = "far-lower" ↔ m.platforms - g.platforms < -2) := by
  have hp : (evaluateGuess g m).platforms =
      (if m.platforms - g.platforms = 0 then "correct"
       else if 1 ≤ m.platforms - g.platforms ∧ m.platforms - g.platforms ≤ 2 then
         "close-higher"
       else if m.platforms - g.platforms ≤ -1 ∧ -2 ≤ m.platforms - g.platforms then
         "close-lower"
       else if 2 < m.platforms - g.platforms then "far-higher"
       else "far-lower") := rfl
  rw [hp]
  split_ifs with h1 h2 h3 h4 <;>
    refine ⟨?_, ?_, ?_, ?_, ?_⟩ <;>
    constructor <;>
    intro hh <;>
    first
      | rfl
      | omega
      | exact absurd hh (by decide)

theorem footfall_indexOf_eq_bandOrd (b : FootfallBand) :
    FOOTFALL_ORDER.indexOf b = bandOrd b := by
  cases b <;> rfl

theorem evaluateGuess_footfall_char (g m : Station) :
    ((evaluateGuess g m).footfallBand = "correct" ↔
      (bandOrd m.footfallBand : Int) - bandOrd g.footfallBand = 0) ∧
    ((evaluateGuess g m).footfallBand = "close-higher" ↔
      (bandOrd m.footfallBand : Int) - bandOrd g.footfallBand = 1) ∧
    ((evaluateGuess g m).footfallBand = "close-lower" ↔
      (bandOrd m.footfallBand : Int) - bandOrd g.footfallBand = -1) ∧
    ((evaluateGuess g m).footfallBand = "far-higher" ↔
      1 < (bandOrd m.footfallBand : Int) - bandOrd g.footfallBand) ∧
    ((evaluateGuess g m).footfallBand = "far-lower" ↔
      (bandOrd m.footfallBand : Int) - bandOrd g.footfallBand < -1) := by
  have hf : (evaluateGuess g m).footfallBand =
      (if (FOOTFALL_ORDER.indexOf m.footfallBand : Int) -
            (FOOTFALL_ORDER.indexOf g.footfallBand : Int) = 0 then "correct"
       else if (FOOTFALL_ORDER.indexOf m.footfallBand : Int) -
            (FOOTFALL_ORDER.indexOf g.footfallBand : Int) = 1 then "close-higher"
       else if (FOOTFALL_ORDER.indexOf m.footfallBand : Int) -
            (FOOTFALL_ORDER.indexOf g.footfallBand : Int) = -1 then "close-lower"
       else if 1 < (FOOTFALL_ORDER.indexOf m.footfallBand : Int) -
            (FOOTFALL_ORDER.indexOf g.footfallBand : Int) then "far-higher"
       else "far-lower") := rfl
  rw [hf, footfall_indexOf_eq_bandOrd, footfall_indexOf_eq_bandOrd]
  split_ifs with h1 h2 h3 h4 <;>
    refine ⟨?_, ?_, ?_, ?_, ?_⟩ <;>
    constructor <;>
    intro hh <;>
    first
      | rfl
      | omega
      | exact absurd hh (by decide)

/-- Claim C5: the platforms verdict follows the banded thresholds on
`d = mystery.platforms - guess.platforms` (`0 ↦ correct`,
`1 ≤ d ≤ 2 ↦ close-higher`, `-2 ≤ d ≤ -1 ↦ close-lower`,
`d > 2 ↦ far-higher`, `d < -2 ↦ far-lower`), and the footfall verdict follows
the same scheme on the difference of the bands' ordinal positions in the
fixed 7-band order with close meaning exactly one band off. -/
theorem C5_banded_thresholds (g m : Station) :
    (((evaluateGuess g m).platforms = "correct" ↔ m.platforms - g.platforms = 0) ∧
     ((evaluateGuess g m).platforms = "close-higher" ↔
       1 ≤ m.platforms - g.platforms ∧ m.platforms - g.platforms ≤ 2) ∧
     ((evaluateGuess g m).platforms = "close-lower" ↔
       -2 ≤ m.platforms - g.platforms ∧ m.platforms - g.platforms ≤ -1) ∧
     ((evaluateGuess g m).platforms = "far-higher" ↔ 2 < m.platforms - g.platforms) ∧
     ((evaluateGuess g m).platforms = "far-lower" ↔ m.platforms - g.platforms < -2)) ∧
    (((evaluateGuess g m).footfallBand = "correct" ↔
       (bandOrd m.footfallBand : Int) - bandOrd g.footfallBand = 0) ∧
     ((evaluateGuess g m).footfallBand = "close-higher" ↔
       (bandOrd m.footfallBand : Int) - bandOrd g.footfallBand = 1) ∧
     ((evaluateGuess g m).footfallBand = "close-lower" ↔
       (bandOrd m.footfallBand : Int) - bandOrd g.footfallBand = -1) ∧
     ((evaluateGuess g m).footfallBand = "far-higher" ↔
       1 < (bandOrd m.footfallBand : Int) - bandOrd g.footfallBand) ∧
     ((evaluateGuess g m).footfallBand = "far-lower" ↔
       (bandOrd m.footfallBand : Int) - bandOrd g.footfallBand < -1)) :=
  ⟨evaluateGuess_platforms_char g m, evaluateGuess_footfall_char g m⟩

/-- Claim C6: swapping guess and mystery mirrors the platforms verdict
(`correct ↦ correct`, `close-higher ↔ close-lower`, `far-higher ↔ far-lower`)
and likewise the footfall verdict: higher/lower flips while the close/far
classification is preserved. -/
theorem C6_swap_mirrors_verdicts (A B : Station) :
    (((evaluateGuess A B).platforms = "correct" ↔
        (evaluateGuess B A).platforms = "correct") ∧
     ((evaluateGuess A B).platforms = "close-higher" ↔
        (evaluateGuess B A).platforms = "close-lower") ∧
     ((evaluateGuess A B).platforms = "close-lower" ↔
        (evaluateGuess B A).platforms = "close-higher") ∧
     ((evaluateGuess A B).platforms = "far-higher" ↔
        (evaluateGuess B A).platforms = "far-lower") ∧
     ((evaluateGuess A B).platforms = "far-lower" ↔
        (evaluateGuess B A).platforms = "far-higher")) ∧
    (((evaluateGuess A B).footfallBand = "correct" ↔
        (evaluateGuess B A).footfallBand = "correct") ∧
     ((evaluateGuess A B).footfallBand = "close-higher" ↔
        (evaluateGuess B A).footfallBand = "close-lower") ∧
     ((evaluateGuess A B).footfallBand = "close-lower" ↔
        (evaluateGuess B A).footfallBand = "close-higher") ∧
     ((evaluateGuess A B).footfallBand = "far-higher" ↔
        (evaluateGuess B A).footfallBand = "far-lower") ∧
     ((evaluateGuess A B).footfallBand = "far-lower" ↔
        (evaluateGuess B A).footfallBand = "far-higher")) := by
  obtain ⟨p1, p2, p3, p4, p5⟩ := evaluateGuess_platforms_char A B
  obtain ⟨q1, q2, q3, q4, q5⟩ := evaluateGuess_platforms_char B A
  obtain ⟨f1, f2, f3, f4, f5⟩ := evaluateGuess_footfall_char A B
  obtain ⟨e1, e2, e3, e4, e5⟩ := evaluateGuess_footfall_char B A
  refine ⟨⟨?_, ?_, ?_, ?_, ?_⟩, ?_, ?_, ?_, ?_, ?_⟩
  · rw [p1, q1]; omega
  · rw [p2, q3]; omega
  · rw [p3, q2]; omega
  · rw [p4, q5]; omega
  · rw [p5, q4]; omega
  · rw [f1, e1]; omega
  · rw [f2, e3]; omega
  · rw [f3, e2]; omega
  · rw [f4, e5]; omega
  · rw [f5, e4]; omega

/-- Claim C7: guessing the mystery station itself (duplicate-free, non-empty
operator list) yields the all-correct result. -/
theorem C7_self_guess_all_correct (S : Station)
    (hnd : S.operators.Nodup) (hne : S.operators ≠ []) :
    evaluateGuess S S = ⟨"correct", "correct", "correct", "correct", "correct"⟩ := by
  have hfilter : (S.operators.filter fun o => S.operators.contains o) = S.operators :=
    List.filter_eq_self.mpr fun a ha => by simpa using ha
  have hlen : S.operators.length ≠ 0 := fun h =>
    hne (List.length_eq_zero.mp h)
  unfold evaluateGuess
  rw [hfilter, hnd.dedup]
  simp [hlen, sub_self]

/-- Witness for C7 at a concrete station. -/
theorem C7_self_guess_all_correct_witness :
    stA.operators.Nodup ∧ stA.operators ≠ [] ∧
    evaluateGuess stA stA = ⟨"correct", "correct", "correct", "correct", "correct"⟩ :=
  ⟨by decide, by decide, C7_self_guess_all_correct stA (by decide) (by decide)⟩

/-- Claim C4: for duplicate-free non-empty operator lists, the operator
verdict is `correct` iff the operator sets are equal, `wrong` iff they are
disjoint, and `partial` otherwise. -/
theorem C4_operator_set_verdict (g m : Station)
    (hg : g.operators.Nodup) (hm : m.operators.Nodup)
    (hgne : g.operators ≠ []) (hmne : m.operators ≠ []) :
    ((evaluateGuess g m).operator = "correct" ↔
      ∀ x, x ∈ g.operators ↔ x ∈ m.operators) ∧
    ((evaluateGuess g m).operator = "wrong" ↔
      ∀ x, ¬(x ∈ g.operators ∧ x ∈ m.operators)) ∧
    ((evaluateGuess g m).operator = "partial" ↔
      ¬(∀ x, x ∈ g.operators ↔ x ∈ m.operators) ∧
      ¬(∀ x, ¬(x ∈ g.operators ∧ x ∈ m.operators))) := by
  have hop : (evaluateGuess g m).operator =
      (if (m.operators.filter fun o => g.operators.contains o).length = 0 then "wrong"
       else if (m.operators.filter fun o => g.operators.contains o).length =
           m.operators.dedup.length ∧
           g.operators.dedup.length = m.operators.dedup.length then "correct"
       else "partial") := rfl
  rw [hop, hm.dedup, hg.dedup]
  set k := (m.operators.filter fun o => g.operators.contains o).length with hk
  have hdisj : k = 0 ↔ ∀ x, ¬(x ∈ g.operators ∧ x ∈ m.operators) := by
    rw [hk, List.length_eq_zero, List.filter_eq_nil_iff]
    constructor
    · rintro h x ⟨hxg, hxm⟩
      exact h x hxm (by simpa using hxg)
    · intro h o hom hco
      exact h o ⟨by simpa using hco, hom⟩
  have hsub : k = m.operators.length ↔ ∀ x ∈ m.operators, x ∈ g.operators := by
    rw [hk]
    constructor
    · intro h x hx
      have hfe : (m.operators.filter fun o => g.operators.contains o) = m.operators :=
        (List.filter_sublist _).eq_of_length h
      have hx2 : x ∈ m.operators.filter fun o => g.operators.contains o := by
        rw [hfe]; exact hx
      have := (List.mem_filter.mp hx2).2
      simpa using this
    · intro h
      have hfe : (m.operators.filter fun o => g.operators.contains o) = m.operators :=
        List.filter_eq_self.mpr fun a ha => by simpa using h a ha
      rw [hfe]
  have hseteq : (k = m.operators.length ∧ g.operators.length = m.operators.length) ↔
      ∀ x, x ∈ g.operators ↔ x ∈ m.operators := by
    constructor
    · rintro ⟨h1, h2⟩
      have hmg : ∀ x ∈ m.operators, x ∈ g.operators := hsub.mp h1
      have hperm : m.operators.Perm g.operators :=
        (List.subperm_of_subset hm hmg).perm_of_length_le (le_of_eq h2)
      intro x
      exact hperm.symm.mem_iff
    · intro h
      have hmg : ∀ x ∈ m.operators, x ∈ g.operators := fun x hx => (h x).mpr hx
      have hgm : ∀ x ∈ g.operators, x ∈ m.operators := fun x hx => (h x).mp hx
      have s1 := List.subperm_of_subset hm hmg
      have s2 := List.subperm_of_subset hg hgm
      exact ⟨hsub.mpr hmg, le_antisymm s2.length_le s1.length_le⟩
  by_cases h0 : k = 0
  · have hdis : ∀ x, ¬(x ∈ g.operators ∧ x ∈ m.operators) := hdisj.mp h0
    have hnoteq : ¬∀ x, x ∈ g.operators ↔ x ∈ m.operators := by
      intro he
      obtain ⟨x, hx⟩ := List.exists_mem_of_ne_nil m.operators hmne
      exact hdis x ⟨(he x).mpr hx, hx⟩
    rw [if_pos h0]
    exact ⟨iff_of_false (by decide) hnoteq, iff_of_true rfl hdis,
      iff_of_false (by decide) fun hpair => hpair.2 hdis⟩
  · rw [if_neg h0]
    have hndis : ¬∀ x, ¬(x ∈ g.operators ∧ x ∈ m.operators) := fun hd =>
      h0 (hdisj.mpr hd)
    by_cases hc : k = m.operators.length ∧ g.operators.length = m.operators.length
    · rw [if_pos hc]
      have he : ∀ x, x ∈ g.operators ↔ x ∈ m.operators := hseteq.mp hc
      exact ⟨iff_of_true rfl he, iff_of_false (by decide) hndis,
        iff_of_false (by decide) fun hpair => hpair.1 he⟩
    · rw [if_neg hc]
      have hne2 : ¬∀ x, x ∈ g.operators ↔ x ∈ m.operators := fun he =>
        hc (hseteq.mpr he)
      exact ⟨iff_of_false (by decide) hne2, iff_of_false (by decide) hndis,
        iff_of_true rfl ⟨hne2, hndis⟩⟩

/-- Witness for C4 at concrete stations with disjoint singleton operator sets. -/
theorem C4_operator_set_verdict_witness :
    stA.operators.Nodup ∧ stB.operators.Nodup ∧
    (((evaluateGuess stA stB).operator = "correct" ↔
       ∀ x, x ∈ stA.operators ↔ x ∈ stB.operators) ∧
     ((evaluateGuess stA stB).operator = "wrong" ↔
       ∀ x, ¬(x ∈ stA.operators ∧ x ∈ stB.operators)) ∧
     ((evaluateGuess stA stB).operator = "partial" ↔
       ¬(∀ x, x ∈ stA.operators ↔ x ∈ stB.operators) ∧
       ¬(∀ x, ¬(x ∈ stA.operators ∧ x ∈ stB.operators)))) :=
  ⟨by decide, by decide,
    C4_operator_set_verdict stA stB (by decide) (by decide) (by decide) (by decide)⟩

/-- Modelled from the spec for comparison with the source binning: the
compass octant of a displacement `(dlat, dlon)` as "the 45°-wide octant
centred on the principal direction", i.e. the direction whose unit vector has
the largest dot product with the displacement (a bearing lies within 22.5° of
the centre of exactly the sector whose centre direction maximises the dot
product).  Dot products with the four diagonal unit vectors carry a factor
`1/√2`, so a value is stored as a pair `(c, b)` meaning `c` when `b = false`
and `c / √2` when `b = true`, and compared exactly by `dotLtSqrt`. -/
def dotLtSqrt : Int × Bool → Int × Bool → Bool
  | (x, false), (y, false) => x < y
  | (x, true), (y, true) => x < y
  | (x, false), (y, true) =>
      (x < 0 && (0 ≤ y || y * y < 2 * (x * x))) ||
      (0 ≤ x && 0 < y && 2 * (x * x) < y * y)
  | (x, true), (y, false) =>
      (0 < y && (x ≤ 0 || x * x < 2 * (y * y))) ||
      (y ≤ 0 && x < 0 && 2 * (y * y) < x * x)

/-- The eight principal directions with the dot products of their unit
vectors against the displacement `(dlat, dlon)` (diagonal entries carry the
implicit `1/√2` factor, flagged `true`). -/
def dirDots (dlat dlon : Int) : List (String × Int × Bool) :=
  [("N", (dlat, false)), ("NE", (dlat + dlon, true)), ("E", (dlon, false)),
   ("SE", (dlon - dlat, true)), ("S", (-dlat, false)), ("SW", (-(dlat + dlon), true)),
   ("W", (-dlon, false)), ("NW", (dlat - dlon, true))]

/-- Modelled from the spec: the compass octant of the bearing of
`(dlat, dlon)`, as the direction with the maximal dot product. -/
def specOctant (dlat dlon : Int) : String :=
  ((dirDots dlat dlon).foldl
    (fun best cur => if dotLtSqrt best.2 cur.2 then cur else best)
    ("N", (dlat, false))).1

/-- For distinct regions, the source's degree binning agrees with the
spec-side maximal-dot-product octant, and the rendered verdict is never the
literal `"correct"`; checked over all 132 ordered region pairs. -/
theorem directionBetween_eq_spec : ∀ r1 r2 : Region, r1 ≠ r2 →
    directionBetween r1 r2 =
      (if r2 ∈ REGION_ADJACENCY r1 then "close" else "far") ++ "-" ++
        specOctant ((REGION_CENTROIDS r2).1 - (REGION_CENTROIDS r1).1)
          ((REGION_CENTROIDS r2).2 - (REGION_CENTROIDS r1).2) ∧
    directionBetween r1 r2 ≠ "correct" := by decide

/-- Claim C3: the region verdict of `evaluateGuess` is `"correct"` exactly
when the regions are equal; otherwise it is the string
`{close|far}-{octant}` where proximity is `close` exactly when the mystery
region is in the guess region's adjacency list and the octant is the
45°-wide compass sector of the centroid-to-centroid bearing — in particular
the verdict is never `"correct"` for unequal regions. -/
theorem C3_region_verdict (g m : Station) :
    ((evaluateGuess g m).region = "correct" ↔ g.region = m.region) ∧
    (g.region ≠ m.region →
      (evaluateGuess g m).region =
        (if m.region ∈ REGION_ADJACENCY g.region then "close" else "far") ++ "-" ++
          specOctant ((REGION_CENTROIDS m.region).1 - (REGION_CENTROIDS g.region).1)
            ((REGION_CENTROIDS m.region).2 - (REGION_CENTROIDS g.region).2)) := by
  have hreg : (evaluateGuess g m).region =
      (if g.region = m.region then "correct"
       else directionBetween g.region m.region) := rfl
  by_cases h : g.region = m.region
  · rw [hreg, if_pos h]
    exact ⟨iff_of_true rfl h, fun hne => absurd h hne⟩
  · rw [hreg, if_neg h]
    obtain ⟨heq, hnc⟩ := directionBetween_eq_spec g.region m.region h
    exact ⟨iff_of_false hnc h, fun _ => heq⟩

/-- Witness for C3 at concrete stations with distinct regions. -/
theorem C3_region_verdict_witness :
    stA.region ≠ stB.region ∧
    (evaluateGuess stA stB).region =
      (if stB.region ∈ REGION_ADJACENCY stA.region then "close" else "far") ++ "-" ++
        specOctant ((REGION_CENTROIDS stB.region).1 - (REGION_CENTROIDS stA.region).1)
          ((REGION_CENTROIDS stB.region).2 - (REGION_CENTROIDS stA.region).2) :=
  ⟨by decide, (C3_region_verdict stA stB).2 (by decide)⟩

end Traindle
